import Mathlib

/-!
Verification of the GrievancePortal AI image-classification service
(`ai_model/main.py`, serving) and its training companion
(`ai_model/train.py`), as a shallow embedding in Lean 4.

Modelling conventions:
* Python floats are modelled as rationals (`ℚ`); the functions verified
  here only compare, select and round values, so their behaviour is
  order-theoretic and carries over unchanged.
* External collaborators (PIL's image decoder, the torch forward pass)
  are parameters of the handler: a decode function
  `List Nat → Except String Img` and a model function
  `Img → Except String (List ℚ)` standing for the composite
  transform → forward → softmax → tolist.  An `Except.error` models a
  raised Python exception.
* `raise HTTPException(status, detail)` becomes the `Outcome.httpError`
  constructor; an exception that is not caught inside the handler and
  escapes it becomes `Outcome.raised`.
-/

namespace GrievancePortal

/-- The serving-side Category Registry, `main.py` lines 43-50. -/
def CATEGORIES : List String :=
  [ "Damaged Road Issue"
  , "Fallen Trees"
  , "Garbage and Trash Issue"
  , "Illegal Drawing on Walls"
  , "Street Light Issue"
  , "Other" ]

/-- `NUM_CLASSES = len(CATEGORIES)`, `main.py` line 51. -/
def NUM_CLASSES : Nat := CATEGORIES.length

namespace Train

/-- The training-side Category Registry, `train.py` lines 46-51
(its comment reads: Categories (must match main.py)). -/
def CATEGORIES : List String :=
  [ "DamagedRoads"
  , "ElectricityIssues"
  , "GarbageAndSanitation"
  , "Other" ]

/-- `NUM_CLASSES = len(CATEGORIES)`, `train.py` line 52. -/
def NUM_CLASSES : Nat := CATEGORIES.length

end Train

/-- `_confidence_label`, `main.py` lines 86-93: buckets a top-1
probability into a discrete confidence tier. -/
def confidence_label (prob : ℚ) : String :=
  if prob ≥ 7/10 then "high"
  else if prob ≥ 4/10 then "medium"
  else if prob ≥ 2/10 then "low"
  else "none"

/-- Numeric rank of a confidence tier, used to state monotonicity of
`confidence_label`. -/
def tierRank (s : String) : Nat :=
  if s = "none" then 0
  else if s = "low" then 1
  else if s = "medium" then 2
  else 3

namespace Serving

/-- A decoded PIL image (the value produced by
`Image.open(io.BytesIO(raw_bytes)).convert("RGB")`).  The service never
inspects it beyond handing it to the transform and the model, so it is
modelled as an abstract token. -/
abbrev Img := Nat

/-- The loaded model seen by the handler: the composite of
`_transform`, `unsqueeze`, the forward pass, `softmax` and `tolist`
(`main.py` lines 182-187), i.e. a function from a decoded image to the
probability list `probs_list`.  `Except.error msg` models a Python
exception raised inside this path. -/
abbrev ModelFn := Img → Except String (List ℚ)

/-- The PIL decode step: `Image.open(io.BytesIO(raw_bytes)).convert("RGB")`
(`main.py` line 177); `Except.error` models the raised decode exception. -/
abbrev DecodeFn := List Nat → Except String Img

/-- The module-level mutable `model: Optional[nn.Module] = None`
(`main.py` line 98). -/
structure ServerState where
  model : Option ModelFn

/-- `model` is `None` until `startup` runs (`main.py` line 98). -/
def initialState : ServerState := ⟨none⟩

/-- `load_model` (`main.py` lines 101-114): builds the architecture,
loads fine-tuned weights when the weights file exists, otherwise warns
and keeps the ImageNet backbone only; in both cases it returns a model. -/
def load_model (weightsExists : Bool) (finetuned backbone : ModelFn) : ModelFn :=
  if weightsExists then finetuned else backbone

/-- The `startup` event handler (`main.py` lines 133-138): assigns the
result of `load_model()` to the global `model`. -/
def startup (weightsExists : Bool) (finetuned backbone : ModelFn)
    (st : ServerState) : ServerState :=
  { st with model := some (load_model weightsExists finetuned backbone) }

/-- An incoming upload: declared content type (`None` when the part has
no Content-Type header) and the byte payload returned by
`await image.read()`. -/
structure Request where
  contentType : Option String
  bytes : List Nat
deriving DecidableEq

/-- `raise HTTPException(status_code=..., detail=...)`. -/
structure HTTPError where
  status_code : Nat
  detail : String
deriving DecidableEq

/-- The `ClassifyResponse` pydantic schema (`main.py` lines 144-149).
The Python `all_scores` dict is an insertion-ordered association list;
its keys come from `CATEGORIES`, which has no duplicates. -/
structure ClassifyResponse where
  category : String
  raw_label : String
  confidence : String
  confidence_score : ℚ
  all_scores : List (String × ℚ)
deriving DecidableEq

/-- What one call of the `classify` handler can produce: a normal
response, a raised `HTTPException`, or a non-HTTP exception that the
handler does not catch and that escapes it. -/
inductive Outcome where
  | ok : ClassifyResponse → Outcome
  | httpError : HTTPError → Outcome
  | raised : String → Outcome
deriving DecidableEq

/-- HTTP status of an outcome: a plain return is a 200, a raised
`HTTPException` carries its status code, an escaped exception has no
status assigned by the handler. -/
def Outcome.status : Outcome → Option Nat
  | .ok _ => some 200
  | .httpError e => some e.status_code
  | .raised _ => none

/-- Python `str.startswith`, modelled as a prefix test on the
character sequences of the two strings. -/
def startsWith (s p : String) : Bool := p.data.isPrefixOf s.data

/-- The content-type guard, `main.py` line 169:
`if image.content_type and not image.content_type.startswith("image/")`.
Python truthiness makes both a missing (`None`) and an empty-string
content type skip the rejection. -/
def ctBad : Option String → Bool
  | none => false
  | some s => !s.isEmpty && !(startsWith s "image/")

/-- Python `str.title()` as used on the category name (`main.py`
line 202): each alphabetic character is uppercased when the previous
character is not alphabetic and lowercased otherwise. -/
def pyTitleGo : List Char → Bool → List Char
  | [], _ => []
  | c :: cs, prevAlpha =>
    (if prevAlpha then c.toLower else c.toUpper) :: pyTitleGo cs c.isAlpha

/-- String wrapper for `pyTitleGo`. -/
def pyTitle (s : String) : String := ⟨pyTitleGo s.data false⟩

/-- Python's `round` ties-to-even rule on a rational. -/
def roundHalfEven (q : ℚ) : ℤ :=
  let n := ⌊q⌋
  let r := q - n
  if r < 1/2 then n
  else if 1/2 < r then n + 1
  else if n % 2 = 0 then n else n + 1

/-- `round(x, 4)` (`main.py` lines 192 and 204): round to 4 decimal
digits, ties to even. -/
def round4 (q : ℚ) : ℚ := (roundHalfEven (q * 10000) : ℚ) / 10000

/-- `torch.argmax` over `probs` (`main.py` line 188): the index of the
first occurrence of the maximum (per the torch documentation; 0 on an
empty list, which the 6-wide classification head never produces). -/
def argmaxIdx : List ℚ → Nat
  | [] => 0
  | [_] => 0
  | x :: y :: xs =>
    if x < (y :: xs).getD (argmaxIdx (y :: xs)) 0 then argmaxIdx (y :: xs) + 1 else 0

/-- The result-assembly tail of the handler (`main.py` lines 187-206):
top index, top probability, top category, rounded per-category score
mapping, and the `ClassifyResponse` literal. -/
def assembleResponse (probs_list : List ℚ) : ClassifyResponse :=
  let top_idx := argmaxIdx probs_list
  let top_prob := probs_list.getD top_idx 0
  let top_cat := CATEGORIES.getD top_idx ""
  { category := top_cat
  , raw_label := pyTitle (top_cat.replace "_" " ")
  , confidence := confidence_label top_prob
  , confidence_score := round4 top_prob
  , all_scores := (CATEGORIES.zip probs_list).map fun p => (p.1, round4 p.2) }

/-- The `POST /classify` handler (`main.py` lines 160-206): not-ready
check, content-type guard, empty-payload guard, decode with its
try/except producing a 422, then the forward pass (not wrapped in any
try/except) and result assembly. -/
def classify (decode : DecodeFn) (st : ServerState) (req : Request) : Outcome :=
  match st.model with
  | none => .httpError ⟨503, "Model not loaded yet."⟩
  | some model =>
    if ctBad req.contentType then .httpError ⟨400, "File must be an image."⟩
    else if req.bytes.isEmpty then .httpError ⟨400, "Empty file received."⟩
    else
      match decode req.bytes with
      | .error exc => .httpError ⟨422, "Cannot decode image: " ++ exc⟩
      | .ok pil_img =>
        match model pil_img with
        | .error exc => .raised exc
        | .ok probs_list => .ok (assembleResponse probs_list)

/-- The JSON body returned by `GET /health` (`main.py` line 157). -/
structure HealthBody where
  status : String
  device : String
  model_loaded : Bool
deriving DecidableEq

/-- The `GET /health` handler (`main.py` lines 155-157): a plain return
from a FastAPI GET handler, hence HTTP status 200, with
`model_loaded = (model is not None)`. -/
def health (device : String) (st : ServerState) : Nat × HealthBody :=
  (200, { status := "ok", device := device, model_loaded := st.model.isSome })

/-- A non-empty list's first-argmax index is in range. -/
theorem argmaxIdx_lt_length : ∀ (l : List ℚ), l ≠ [] → argmaxIdx l < l.length
  | [_], _ => by simp [argmaxIdx]
  | x :: y :: xs, _ => by
    have ih := argmaxIdx_lt_length (y :: xs) (by simp)
    simp only [argmaxIdx]
    split
    · exact Nat.succ_lt_succ ih
    · simp

/-- Every entry of the list is at most the entry at the first-argmax
index. -/
theorem argmaxIdx_is_max : ∀ (l : List ℚ) (i : Nat), i < l.length →
    l.getD i 0 ≤ l.getD (argmaxIdx l) 0
  | [x], i, hi => by
    have h0 : i = 0 := by simpa using Nat.lt_one_iff.mp (by simpa using hi)
    subst h0; simp [argmaxIdx]
  | x :: y :: xs, i, hi => by
    simp only [argmaxIdx]
    split
    next hlt =>
      cases i with
      | zero => simpa using le_of_lt hlt
      | succ i =>
        simp only [List.getD_cons_succ]
        exact argmaxIdx_is_max (y :: xs) i (by simpa using Nat.lt_of_succ_lt_succ hi)
    next hge =>
      push_neg at hge
      cases i with
      | zero => simp
      | succ i =>
        simp only [List.getD_cons_zero, List.getD_cons_succ]
        exact le_trans
          (argmaxIdx_is_max (y :: xs) i (by simpa using Nat.lt_of_succ_lt_succ hi)) hge

/-- Entries strictly before the first-argmax index are strictly below
the maximum: the code's argmax resolves ties towards the lowest index. -/
theorem argmaxIdx_is_first : ∀ (l : List ℚ) (j : Nat), j < argmaxIdx l →
    l.getD j 0 < l.getD (argmaxIdx l) 0
  | [], j, h => by simp [argmaxIdx] at h
  | [x], j, h => by simp [argmaxIdx] at h
  | x :: y :: xs, j, h => by
    by_cases c : x < (y :: xs).getD (argmaxIdx (y :: xs)) 0
    · have hrw : argmaxIdx (x :: y :: xs) = argmaxIdx (y :: xs) + 1 := by
        simp only [argmaxIdx]; rw [if_pos c]
      rw [hrw] at h ⊢
      cases j with
      | zero => simpa using c
      | succ j =>
        simp only [List.getD_cons_succ]
        exact argmaxIdx_is_first (y :: xs) j (Nat.lt_of_succ_lt_succ h)
    · have hrw : argmaxIdx (x :: y :: xs) = 0 := by
        simp only [argmaxIdx]; rw [if_neg c]
      rw [hrw] at h
      exact absurd h (Nat.not_lt_zero j)

/-- An in-range `getD` is a member of the list. -/
theorem getD_mem : ∀ (l : List String) (k : Nat), k < l.length → l.getD k "" ∈ l
  | a :: ks, 0, _ => by simp
  | a :: ks, k + 1, h => by
    simp only [List.getD_cons_succ]
    exact List.mem_cons_of_mem a (getD_mem ks k (by simpa using h))

/-- Looking up the k-th key of a duplicate-free association list built
by zipping keys with rounded values returns the k-th rounded value. -/
theorem lookup_zip_round4 :
    ∀ (keys : List String) (vals : List ℚ) (k : Nat),
      keys.Nodup → k < keys.length → k < vals.length →
      List.lookup (keys.getD k "")
          ((keys.zip vals).map fun p => (p.1, round4 p.2))
        = some (round4 (vals.getD k 0))
  | a :: ks, v :: vs, 0, _, _, _ => by
    simp [List.lookup]
  | a :: ks, v :: vs, k + 1, hnd, hk, hv => by
    obtain ⟨hna, hnd'⟩ := List.nodup_cons.mp hnd
    have hk' : k < ks.length := by simpa using hk
    have hne : ks.getD k "" ≠ a := fun he => hna (he ▸ getD_mem ks k hk')
    have hbeq : (ks.getD k "" == a) = false := beq_eq_false_iff_ne.mpr hne
    simp only [List.zip_cons_cons, List.map_cons, List.getD_cons_succ, List.lookup]
    rw [hbeq]
    exact lookup_zip_round4 ks vs k hnd' hk' (by simpa using hv)

/-- The keys of the zipped, rounded score mapping are exactly the key
list, provided there are at least as many values as keys. -/
theorem zip_map_round4_fst :
    ∀ (keys : List String) (vals : List ℚ),
      keys.length ≤ vals.length →
      ((keys.zip vals).map fun p => (p.1, round4 p.2)).map Prod.fst = keys
  | [], _, _ => by simp
  | a :: ks, v :: vs, h => by
    simp only [List.zip_cons_cons, List.map_cons]
    rw [zip_map_round4_fst ks vs (by simpa using h)]
  | a :: ks, [], h => by simp at h

/-- Elementwise description of the zipped, rounded score mapping. -/
theorem zip_map_round4_getD :
    ∀ (keys : List String) (vals : List ℚ) (i : Nat),
      i < keys.length → i < vals.length →
      ((keys.zip vals).map fun p => (p.1, round4 p.2)).getD i ("", 0)
        = (keys.getD i "", round4 (vals.getD i 0))
  | a :: ks, v :: vs, 0, _, _ => by simp
  | a :: ks, v :: vs, i + 1, hk, hv => by
    simp only [List.zip_cons_cons, List.map_cons, List.getD_cons_succ]
    exact zip_map_round4_getD ks vs i (by simpa using hk) (by simpa using hv)

/-- When the model is loaded and every gate passes, `classify` returns
the assembled response. -/
theorem classify_ok_of_gates (decode : DecodeFn) (m : ModelFn) (req : Request)
    (img : Img) (probs : List ℚ)
    (hct : ctBad req.contentType = false)
    (hne : req.bytes.isEmpty = false)
    (hdec : decode req.bytes = .ok img)
    (hm : m img = .ok probs) :
    classify decode ⟨some m⟩ req = .ok (assembleResponse probs) := by
  simp [classify, hct, hne, hdec, hm]

/-- Conversely, a successful `classify` call passed every gate, and its
response is the assembled response of the model's probability list. -/
theorem classify_ok_inv (decode : DecodeFn) (m : ModelFn) (req : Request)
    (r : ClassifyResponse)
    (h : classify decode ⟨some m⟩ req = .ok r) :
    ctBad req.contentType = false ∧ req.bytes.isEmpty = false ∧
    ∃ img probs, decode req.bytes = .ok img ∧ m img = .ok probs ∧
      r = assembleResponse probs := by
  simp only [classify] at h
  split at h
  · exact absurd h (by simp)
  · split at h
    · exact absurd h (by simp)
    · split at h
      next => exact absurd h (by simp)
      next img hdec =>
        split at h
        next => exact absurd h (by simp)
        next probs hm =>
          refine ⟨by simp_all, by simp_all, img, probs, hdec, hm, ?_⟩
          exact (Outcome.ok.inj h).symm

end Serving

end GrievancePortal

namespace GrievancePortal

/-- Claim C1: the ordered category registry used at inference time
(`CATEGORIES` in `main.py`) is positionally identical, element for
element and in length, to the one in `train.py`.  The code violates
this: the two registries differ in length (6 vs 4) and in every
element, although `train.py`'s own comment demands they match. -/
theorem C1_registry_mismatch :
    CATEGORIES ≠ Train.CATEGORIES ∧
    CATEGORIES.length = 6 ∧ Train.CATEGORIES.length = 4 ∧
    CATEGORIES.getD 0 "" ≠ Train.CATEGORIES.getD 0 "" := by
  refine ⟨?_, rfl, rfl, ?_⟩ <;> decide

/-- Claim C2: `confidence_label` is a pure monotonically non-decreasing
step function returning exactly high for p ≥ 0.70, medium for
0.40 ≤ p < 0.70, low for 0.20 ≤ p < 0.40 and none for p < 0.20, each
tier's lower bound inclusive, with the eight listed sample points. -/
theorem C2_confidence_tier :
    (∀ p : ℚ, 7/10 ≤ p → confidence_label p = "high") ∧
    (∀ p : ℚ, 4/10 ≤ p → p < 7/10 → confidence_label p = "medium") ∧
    (∀ p : ℚ, 2/10 ≤ p → p < 4/10 → confidence_label p = "low") ∧
    (∀ p : ℚ, p < 2/10 → confidence_label p = "none") ∧
    (∀ p q : ℚ, p ≤ q → tierRank (confidence_label p) ≤ tierRank (confidence_label q)) ∧
    confidence_label 0 = "none" ∧
    confidence_label (19999/100000) = "none" ∧
    confidence_label (2/10) = "low" ∧
    confidence_label (399/1000) = "low" ∧
    confidence_label (4/10) = "medium" ∧
    confidence_label (699/1000) = "medium" ∧
    confidence_label (7/10) = "high" ∧
    confidence_label 1 = "high" := by
  refine ⟨?_, ?_, ?_, ?_, ?_, ?_, ?_, ?_, ?_, ?_, ?_, ?_, ?_⟩
  · intro p h
    simp only [confidence_label, ge_iff_le, if_pos h]
  · intro p h1 h2
    simp only [confidence_label, ge_iff_le]
    rw [if_neg (by linarith), if_pos h1]
  · intro p h1 h2
    simp only [confidence_label, ge_iff_le]
    rw [if_neg (by linarith), if_neg (by linarith), if_pos h1]
  · intro p h
    simp only [confidence_label, ge_iff_le]
    rw [if_neg (by linarith), if_neg (by linarith), if_neg (by linarith)]
  · intro p q hpq
    unfold confidence_label
    split_ifs <;> first | decide | (exfalso; linarith)
  all_goals (unfold confidence_label; norm_num)

/-- Witness for C2: the theorem applied at the concrete input 1/2. -/
theorem C2_witness : confidence_label (1/2) = "medium" :=
  C2_confidence_tier.2.1 (1/2) (by norm_num) (by norm_num)

open Serving

/-- Claim C3: while the model has not finished loading (the global is
still `None`), every classify request gets a 503 not-ready rejection,
the same constant outcome for every decode function and request, so no
decoding or inference happens; health always answers 200 and reports
`model_loaded` truthfully: `false` before the load completes and `true`
after `startup`, in both the weights-found and weights-missing cases. -/
theorem C3_not_ready_and_health :
    (∀ (decode : DecodeFn) (req : Request),
        classify decode ⟨none⟩ req = .httpError ⟨503, "Model not loaded yet."⟩) ∧
    (∀ (device : String) (st : ServerState), (health device st).1 = 200) ∧
    initialState = ⟨none⟩ ∧
    (∀ device : String, (health device initialState).2.model_loaded = false) ∧
    (∀ (device : String) (weightsExists : Bool) (finetuned backbone : ModelFn)
        (st : ServerState),
        (health device (startup weightsExists finetuned backbone st)).2.model_loaded
          = true) :=
  ⟨fun _ _ => rfl, fun _ _ => rfl, rfl, fun _ => rfl, fun _ _ _ _ _ => rfl⟩

/-- Claim C4: with the model loaded, a declared non-empty content type
that does not start with the image prefix gives a 400 (independently of
the decode and model functions, so nothing is decoded or inferred); an
empty byte payload always gives a 400; a request with no declared
content type is never rejected with the content-type 400.  Python's
truthiness check on `image.content_type` treats an empty-string header
like a missing one, so "present" means a non-empty declared value. -/
theorem C4_intake_validation :
    (∀ (decode : DecodeFn) (m : ModelFn) (req : Request) (s : String),
        req.contentType = some s → s ≠ "" → startsWith s "image/" = false →
        classify decode ⟨some m⟩ req = .httpError ⟨400, "File must be an image."⟩) ∧
    (∀ (decode : DecodeFn) (m : ModelFn) (req : Request),
        req.bytes = [] →
        (classify decode ⟨some m⟩ req).status = some 400) ∧
    (∀ (decode : DecodeFn) (m : ModelFn) (req : Request),
        req.contentType = none →
        classify decode ⟨some m⟩ req ≠ .httpError ⟨400, "File must be an image."⟩) := by
  refine ⟨?_, ?_, ?_⟩
  · intro decode m req s hct hne hsw
    have h1 : s.isEmpty = false := by
      rw [Bool.eq_false_iff]
      intro hh
      exact hne ((String.isEmpty_iff s).mp hh)
    have hbad : ctBad req.contentType = true := by
      rw [hct]; simp [ctBad, h1, hsw]
    simp [classify, hbad]
  · intro decode m req hb
    by_cases hbad : ctBad req.contentType
    · simp [classify, hbad, Outcome.status]
    · simp [classify, hbad, hb, Outcome.status]
  · intro decode m req hct
    have hbad : ctBad req.contentType = false := by rw [hct]; rfl
    simp only [classify, hbad, Bool.false_eq_true, if_false]
    split
    · simp
    · split
      · simp
      · split
        · simp
        · simp

/-- Witness for C4: a loaded server rejects a text upload with the
content-type 400 (first conjunct of the theorem at concrete inputs). -/
theorem C4_witness :
    classify (fun _ => .ok 0) ⟨some fun _ => .ok [1, 0, 0, 0, 0, 0]⟩
        ⟨some "text/plain", [7]⟩
      = .httpError ⟨400, "File must be an image."⟩ :=
  C4_intake_validation.1 (fun _ => .ok 0) (fun _ => .ok [1, 0, 0, 0, 0, 0])
    ⟨some "text/plain", [7]⟩ "text/plain" rfl (by decide) (by decide)

/-- Claim C5: a request that passes intake but whose bytes cannot be
decoded is rejected with a 422 whose detail string is the fixed prefix
followed by the underlying decode error, and the outcome is the same
for every model, so no forward pass runs and no other error kind is
raised. -/
theorem C5_undecodable_422 :
    ∀ (decode : DecodeFn) (m mAlt : ModelFn) (req : Request) (e : String),
      ctBad req.contentType = false → req.bytes ≠ [] →
      decode req.bytes = .error e →
      classify decode ⟨some m⟩ req
          = .httpError ⟨422, "Cannot decode image: " ++ e⟩ ∧
      classify decode ⟨some m⟩ req = classify decode ⟨some mAlt⟩ req := by
  intro decode m mAlt req e hct hb hdec
  have hne : req.bytes.isEmpty = false := by
    cases hbb : req.bytes with
    | nil => exact absurd hbb hb
    | cons a t => rfl
  constructor <;> simp [classify, hct, hne, hdec]

/-- Witness for C5: a concrete undecodable upload is rejected 422 with
the decode error in the detail. -/
theorem C5_witness :
    classify (fun _ => .error "cannot identify image file")
        ⟨some fun _ => .ok [1, 0, 0, 0, 0, 0]⟩ ⟨none, [9]⟩
      = .httpError ⟨422, "Cannot decode image: " ++ "cannot identify image file"⟩ :=
  (C5_undecodable_422 (fun _ => .error "cannot identify image file")
    (fun _ => .ok [1, 0, 0, 0, 0, 0]) (fun _ => .ok [])
    ⟨none, [9]⟩ "cannot identify image file" rfl (by simp) rfl).1

/-- Claim C6: a successful classify response returns the registry entry
at an index k of the score vector that carries the maximum probability
and is the lowest such index (every earlier entry is strictly smaller:
argmax over equal values returns the first occurrence), and the
confidence tier is computed from that top probability. -/
theorem C6_top1_first_argmax :
    ∀ (decode : DecodeFn) (m : ModelFn) (req : Request) (img : Img)
      (probs : List ℚ) (r : ClassifyResponse),
      decode req.bytes = .ok img → m img = .ok probs →
      probs.length = NUM_CLASSES →
      classify decode ⟨some m⟩ req = .ok r →
      ∃ k, k < probs.length ∧
        r.category = CATEGORIES.getD k "" ∧
        (∀ i, i < probs.length → probs.getD i 0 ≤ probs.getD k 0) ∧
        (∀ j, j < k → probs.getD j 0 < probs.getD k 0) ∧
        r.confidence = confidence_label (probs.getD k 0) := by
  intro decode m req img probs r hdec hm hlen hok
  obtain ⟨hct, hne, img', probs', hdec', hm', hr⟩ := classify_ok_inv decode m req r hok
  rw [hdec] at hdec'
  injection hdec' with h1
  subst h1
  rw [hm] at hm'
  injection hm' with h2
  subst h2
  subst hr
  have hnil : probs ≠ [] := by
    intro hh
    rw [hh] at hlen
    simp [NUM_CLASSES, CATEGORIES] at hlen
  exact ⟨argmaxIdx probs, argmaxIdx_lt_length probs hnil, rfl,
    fun i hi => argmaxIdx_is_max probs i hi,
    fun j hj => argmaxIdx_is_first probs j hj, rfl⟩

/-- Witness for C6: the theorem applied to a concrete model whose score
vector has its (unique) maximum at index 2. -/
theorem C6_witness :
    ∃ k, k < ([1/10, 1/5, 3/10, 1/10, 1/5, 1/10] : List ℚ).length ∧
      (assembleResponse [1/10, 1/5, 3/10, 1/10, 1/5, 1/10]).category
        = CATEGORIES.getD k "" ∧
      (∀ i, i < ([1/10, 1/5, 3/10, 1/10, 1/5, 1/10] : List ℚ).length →
        ([1/10, 1/5, 3/10, 1/10, 1/5, 1/10] : List ℚ).getD i 0
          ≤ ([1/10, 1/5, 3/10, 1/10, 1/5, 1/10] : List ℚ).getD k 0) ∧
      (∀ j, j < k →
        ([1/10, 1/5, 3/10, 1/10, 1/5, 1/10] : List ℚ).getD j 0
          < ([1/10, 1/5, 3/10, 1/10, 1/5, 1/10] : List ℚ).getD k 0) ∧
      (assembleResponse [1/10, 1/5, 3/10, 1/10, 1/5, 1/10]).confidence
        = confidence_label (([1/10, 1/5, 3/10, 1/10, 1/5, 1/10] : List ℚ).getD k 0) :=
  C6_top1_first_argmax (fun _ => .ok 0)
    (fun _ => .ok [1/10, 1/5, 3/10, 1/10, 1/5, 1/10]) ⟨none, [4]⟩ 0
    [1/10, 1/5, 3/10, 1/10, 1/5, 1/10]
    (assembleResponse [1/10, 1/5, 3/10, 1/10, 1/5, 1/10]) rfl rfl rfl rfl

/-- Claim C7: a successful classify response's all_scores mapping has
exactly one entry per registry category, in registry order, keyed by
the (duplicate-free) registry names, and each value is the
corresponding probability rounded to 4 decimal digits. -/
theorem C7_all_scores_registry :
    ∀ (decode : DecodeFn) (m : ModelFn) (req : Request) (img : Img)
      (probs : List ℚ) (r : ClassifyResponse),
      decode req.bytes = .ok img → m img = .ok probs →
      probs.length = NUM_CLASSES →
      classify decode ⟨some m⟩ req = .ok r →
      r.all_scores.length = NUM_CLASSES ∧
      r.all_scores.map Prod.fst = CATEGORIES ∧
      CATEGORIES.Nodup ∧
      ∀ i, i < NUM_CLASSES →
        r.all_scores.getD i ("", 0)
          = (CATEGORIES.getD i "", round4 (probs.getD i 0)) := by
  intro decode m req img probs r hdec hm hlen hok
  obtain ⟨hct, hne, img', probs', hdec', hm', hr⟩ := classify_ok_inv decode m req r hok
  rw [hdec] at hdec'
  injection hdec' with h1
  subst h1
  rw [hm] at hm'
  injection hm' with h2
  subst h2
  subst hr
  have hcat : CATEGORIES.length = NUM_CLASSES := rfl
  refine ⟨?_, ?_, by decide, ?_⟩
  · simp [assembleResponse, List.length_zip, hlen, hcat]
  · exact zip_map_round4_fst CATEGORIES probs (by rw [hlen, hcat])
  · intro i hi
    exact zip_map_round4_getD CATEGORIES probs i (hcat ▸ hi) (hlen ▸ hi)

/-- Witness for C7: the theorem applied to a concrete six-entry score
vector. -/
theorem C7_witness :
    (assembleResponse [1/4, 1/4, 1/8, 1/8, 1/8, 1/8]).all_scores.length
        = NUM_CLASSES ∧
    (assembleResponse [1/4, 1/4, 1/8, 1/8, 1/8, 1/8]).all_scores.map Prod.fst
        = CATEGORIES ∧
    CATEGORIES.Nodup ∧
    ∀ i, i < NUM_CLASSES →
      (assembleResponse [1/4, 1/4, 1/8, 1/8, 1/8, 1/8]).all_scores.getD i ("", 0)
        = (CATEGORIES.getD i "",
           round4 (([1/4, 1/4, 1/8, 1/8, 1/8, 1/8] : List ℚ).getD i 0)) :=
  C7_all_scores_registry (fun _ => .ok 0)
    (fun _ => .ok [1/4, 1/4, 1/8, 1/8, 1/8, 1/8]) ⟨none, [5]⟩ 0
    [1/4, 1/4, 1/8, 1/8, 1/8, 1/8]
    (assembleResponse [1/4, 1/4, 1/8, 1/8, 1/8, 1/8]) rfl rfl rfl rfl

/-- Claim C8: classification is deterministic for a fixed loaded model:
two successful classify calls on the same state with the same image
bytes yield identical all_scores, whatever the two declared content
types were; preprocessing and the forward pass are modelled as fixed
functions of the bytes because the serving transform (`main.py` lines
78-83) applies no random operation, unlike the training-only transform
in `train.py`. -/
theorem C8_deterministic_scores :
    ∀ (decode : DecodeFn) (st : ServerState) (req1 req2 : Request)
      (r1 r2 : ClassifyResponse),
      req1.bytes = req2.bytes →
      classify decode st req1 = .ok r1 →
      classify decode st req2 = .ok r2 →
      r1.all_scores = r2.all_scores := by
  intro decode st req1 req2 r1 r2 hb h1 h2
  obtain ⟨mo⟩ := st
  cases mo with
  | none => exact absurd h1 (by simp [classify])
  | some m =>
    obtain ⟨_, _, img1, probs1, hd1, hm1, hr1⟩ := classify_ok_inv decode m req1 r1 h1
    obtain ⟨_, _, img2, probs2, hd2, hm2, hr2⟩ := classify_ok_inv decode m req2 r2 h2
    rw [hb] at hd1
    rw [hd1] at hd2
    injection hd2 with he
    subst he
    rw [hm1] at hm2
    injection hm2 with hp
    subst hp
    rw [hr1, hr2]

/-- Witness for C8: two calls with the same bytes but different declared
content types produce the same all_scores. -/
theorem C8_witness :
    (assembleResponse [1/6, 1/6, 1/6, 1/6, 1/6, 1/6]).all_scores
      = (assembleResponse [1/6, 1/6, 1/6, 1/6, 1/6, 1/6]).all_scores :=
  C8_deterministic_scores (fun _ => .ok 3)
    ⟨some fun _ => .ok [1/6, 1/6, 1/6, 1/6, 1/6, 1/6]⟩
    ⟨none, [8]⟩ ⟨some "image/png", [8]⟩
    (assembleResponse [1/6, 1/6, 1/6, 1/6, 1/6, 1/6])
    (assembleResponse [1/6, 1/6, 1/6, 1/6, 1/6, 1/6])
    rfl rfl
    (classify_ok_of_gates (fun _ => .ok 3)
      (fun _ => .ok [1/6, 1/6, 1/6, 1/6, 1/6, 1/6])
      ⟨some "image/png", [8]⟩ 3 [1/6, 1/6, 1/6, 1/6, 1/6, 1/6]
      (by decide) rfl rfl rfl)

/-- Counterexample for C9: a concrete request past intake and decode
whose forward pass raises is NOT surfaced as a structured 5xx response;
the exception escapes the classify handler un-normalized (the handler
wraps only the decode step in a try/except, `main.py` lines 176-179),
so the outcome equals no `HTTPException` of any status. -/
theorem C9_counterexample :
    classify (fun _ => .ok 0)
        ⟨some fun _ => .error "RuntimeError: mat1 and mat2 shapes cannot be multiplied"⟩
        ⟨none, [1]⟩
      = .raised "RuntimeError: mat1 and mat2 shapes cannot be multiplied" ∧
    (classify (fun _ => .ok 0)
        ⟨some fun _ => .error "RuntimeError: mat1 and mat2 shapes cannot be multiplied"⟩
        ⟨none, [1]⟩).status = none ∧
    ∀ e : HTTPError,
      classify (fun _ => .ok 0)
          ⟨some fun _ => .error "RuntimeError: mat1 and mat2 shapes cannot be multiplied"⟩
          ⟨none, [1]⟩
        ≠ .httpError e := by
  refine ⟨rfl, rfl, fun e h => ?_⟩
  simp only [classify, ctBad, List.isEmpty_cons, Bool.false_eq_true, if_false] at h
  exact Outcome.noConfusion h

/-- Claim C9 as amended: an unexpected failure raised in the
forward-pass path after intake and decode have succeeded is not caught
inside the classify handler; it propagates out of the handler
un-normalized, carrying no HTTP status, leaving any conversion to a
generic 500 to the serving framework outside this module. -/
theorem C9_forward_failure_escapes :
    ∀ (decode : DecodeFn) (m : ModelFn) (req : Request) (img : Img) (e : String),
      ctBad req.contentType = false → req.bytes ≠ [] →
      decode req.bytes = .ok img → m img = .error e →
      classify decode ⟨some m⟩ req = .raised e ∧
      (classify decode ⟨some m⟩ req).status = none := by
  intro decode m req img e hct hb hdec hm
  have hne : req.bytes.isEmpty = false := by
    cases hbb : req.bytes with
    | nil => exact absurd hbb hb
    | cons a t => rfl
  have hc : classify decode ⟨some m⟩ req = .raised e := by
    simp [classify, hct, hne, hdec, hm]
  exact ⟨hc, by rw [hc]; rfl⟩

/-- Witness for C9: the amended theorem applied at a concrete crashing
forward pass. -/
theorem C9_witness :
    classify (fun _ => .ok 1) ⟨some fun _ => .error "CUDA error"⟩ ⟨none, [2]⟩
      = .raised "CUDA error" :=
  (C9_forward_failure_escapes (fun _ => .ok 1) (fun _ => .error "CUDA error")
    ⟨none, [2]⟩ 1 "CUDA error" rfl (by simp) rfl rfl).1

/-- Claim C10: in a successful classify response the confidence_score
field and the all_scores entry stored under the returned category agree:
both are the top-1 probability rounded to 4 decimal digits. -/
theorem C10_confidence_score_consistent :
    ∀ (decode : DecodeFn) (m : ModelFn) (req : Request) (img : Img)
      (probs : List ℚ) (r : ClassifyResponse),
      decode req.bytes = .ok img → m img = .ok probs →
      probs.length = NUM_CLASSES →
      classify decode ⟨some m⟩ req = .ok r →
      List.lookup r.category r.all_scores = some r.confidence_score ∧
      r.confidence_score = round4 (probs.getD (argmaxIdx probs) 0) := by
  intro decode m req img probs r hdec hm hlen hok
  obtain ⟨hct, hne, img', probs', hdec', hm', hr⟩ := classify_ok_inv decode m req r hok
  rw [hdec] at hdec'
  injection hdec' with h1
  subst h1
  rw [hm] at hm'
  injection hm' with h2
  subst h2
  subst hr
  have hnil : probs ≠ [] := by
    intro hh
    rw [hh] at hlen
    simp [NUM_CLASSES, CATEGORIES] at hlen
  have hk : argmaxIdx probs < probs.length := argmaxIdx_lt_length probs hnil
  have hkc : argmaxIdx probs < CATEGORIES.length := by
    rw [show CATEGORIES.length = NUM_CLASSES from rfl, ← hlen]
    exact hk
  refine ⟨?_, rfl⟩
  exact lookup_zip_round4 CATEGORIES probs (argmaxIdx probs) (by decide) hkc hk

/-- Witness for C10: the theorem applied to a concrete score vector;
looking the returned category up in all_scores yields exactly the
confidence_score. -/
theorem C10_witness :
    List.lookup (assembleResponse [1/8, 1/2, 1/8, 1/8, 1/16, 1/16]).category
        (assembleResponse [1/8, 1/2, 1/8, 1/8, 1/16, 1/16]).all_scores
      = some (assembleResponse [1/8, 1/2, 1/8, 1/8, 1/16, 1/16]).confidence_score :=
  (C10_confidence_score_consistent (fun _ => .ok 0)
    (fun _ => .ok [1/8, 1/2, 1/8, 1/8, 1/16, 1/16]) ⟨none, [6]⟩ 0
    [1/8, 1/2, 1/8, 1/8, 1/16, 1/16]
    (assembleResponse [1/8, 1/2, 1/8, 1/8, 1/16, 1/16]) rfl rfl rfl rfl).1

end GrievancePortal
